import Mathlib

/-!
Verification of the EDFA serial-protocol codec (`src/edfa.py`).

Byte strings are modelled as `List Nat` whose entries are byte values
(`< 256`); readers that combine bytes into wider words normalise with
`% 256`, which is the identity on actual bytes.  Functions that in the
source print a diagnostic and return early are modelled as `Except`
values returning a typed error; functions that raise an exception
(`struct.unpack` on a wrong-sized buffer) return a distinguished error
value.
-/

set_option maxRecDepth 100000

/-- One shift-and-conditional-xor round of the CRC register, 16-bit
polynomial 0x1021, MSB first. -/
def crc16Round (c : Nat) : Nat :=
  if c &&& 0x8000 ≠ 0 then ((c * 2) ^^^ 0x1021) % 65536 else (c * 2) % 65536

/-- Feed one byte into the CRC register (xor into the high byte, then
eight polynomial rounds). -/
def crc16Step (crc b : Nat) : Nat :=
  (List.range 8).foldl (fun c _ => crc16Round c) (crc ^^^ ((b % 256) * 256))

/-- Function `crc16` from `src/edfa.py` line 11:
`crcmod.mkCrcFun(0x11021, initCrc=0xFFFF, rev=False)`, i.e. the bitwise
MSB-first CRC-16 with polynomial 0x1021 seeded at 0xFFFF, no
reflection, no final xor (CRC-16/CCITT-FALSE). -/
def crc16 (bs : List Nat) : Nat := bs.foldl crc16Step 0xFFFF

/-- Constant `EDFACommand.SYNC_BYTE`. -/
def SYNC_BYTE : Nat := 0x68

/-- The `frame_data` local of `EDFACommand._build_frame`:
`[SYNC] + DEVICE_ADDRESS + [SYNC, cmd_id] + args`. -/
def frame_data (deviceAddress : List Nat) (cmdId : Nat) (args : List Nat) : List Nat :=
  [SYNC_BYTE] ++ deviceAddress ++ [SYNC_BYTE, cmdId] ++ args

/-- Method `EDFACommand._build_frame`: the frame data followed by the CRC over
it, packed big-endian (`struct.pack` with a greater-than H format). -/
def build_frame (deviceAddress : List Nat) (cmdId : Nat) (args : List Nat) : List Nat :=
  let fd := frame_data deviceAddress cmdId args
  let crc := crc16 fd
  fd ++ [crc / 256, crc % 256]

/-- The slice `response[7:-2]` used by every response parser: drop the
7-byte header and the 2-byte trailer. -/
def payload_slice (r : List Nat) : List Nat := (r.drop 7).take (r.length - 9)

/-- Big-endian signed 16-bit read (`struct.unpack` with a greater-than h
format) of two bytes. -/
def toI16 (hi lo : Nat) : Int :=
  let u := (hi % 256) * 256 + lo % 256
  if u < 32768 then (u : Int) else (u : Int) - 65536

/-- Big-endian unsigned 32-bit read (`int.from_bytes(..., 'big')` of a
4-byte slice). -/
def readU32be (b0 b1 b2 b3 : Nat) : Nat :=
  (((b0 % 256) * 256 + b1 % 256) * 256 + b2 % 256) * 256 + b3 % 256

/-- Outcomes of the parser failure paths: the outer early return
("Response too short to parse"), the inner early return ("Not enough
data for all fields"), the alarm parser "No amplifier alarm data
found" return, and an exception escaping `struct.unpack` on a buffer
whose size does not match the format. -/
inductive ParseError
  | responseTooShort
  | notEnoughData
  | noAmpData
  | unpackError
deriving DecidableEq

instance exceptDecEq {ε α : Type} [DecidableEq ε] [DecidableEq α] :
    DecidableEq (Except ε α)
  | Except.error e, Except.error f =>
    if h : e = f then isTrue (by rw [h]) else isFalse (by intro hh; cases hh; exact h rfl)
  | Except.error _, Except.ok _ => isFalse (by intro hh; cases hh)
  | Except.ok _, Except.error _ => isFalse (by intro hh; cases hh)
  | Except.ok a, Except.ok b =>
    if h : a = b then isTrue (by rw [h]) else isFalse (by intro hh; cases hh; exact h rfl)

/-- The ten named operating modes of `mode_map` in
`parse_mode_status_response`, plus the `Unknown (mode)` fallback of
`mode_map.get`. -/
inductive AmpMode
  | disable
  | manual
  | constantGain
  | constantPower
  | clamping
  | aseEnableConstOutputPower
  | aseEnableConstDriveCurrent
  | aseSafe
  | afcConstGain
  | afcConstPower
  | unknown (code : Nat)
deriving DecidableEq

/-- Lookup `mode_map.get(mode, f'Unknown ({mode})')`: dictionary lookup with a
fallback carrying the raw code. -/
def mode_map (c : Nat) : AmpMode :=
  if c = 1 then .disable
  else if c = 2 then .manual
  else if c = 3 then .constantGain
  else if c = 4 then .constantPower
  else if c = 5 then .clamping
  else if c = 6 then .aseEnableConstOutputPower
  else if c = 7 then .aseEnableConstDriveCurrent
  else if c = 8 then .aseSafe
  else if c = 9 then .afcConstGain
  else if c = 10 then .afcConstPower
  else .unknown c

/-- Method `EDFACommand.parse_mode_status_response`: amplifier index byte and
mode byte from `response[7:-2]`. -/
def parse_mode_status_response (r : List Nat) : Except ParseError (Nat × AmpMode) :=
  if r.length < 12 then .error .responseTooShort
  else
    let data := payload_slice r
    if data.length < 2 then .error .notEnoughData
    else .ok (data.getD 0 0, mode_map (data.getD 1 0))

/-- The fields printed by `EDFACommand.parse_module_status_response`. -/
structure ModuleStatus where
  raw : Nat
  disabled : Bool
  apr : Bool
  gainLimited : Bool
  powerClamping : Bool
  reservedBits : Nat
deriving DecidableEq

/-- Method `EDFACommand.parse_module_status_response`: one status byte, bits
0-3 named flags, bits 4-7 reported verbatim. -/
def parse_module_status_response (r : List Nat) : Except ParseError ModuleStatus :=
  if r.length < 10 then .error .responseTooShort
  else
    let data := payload_slice r
    if data.length < 1 then .error .notEnoughData
    else
      let status := data.getD 0 0
      .ok { raw := status
            disabled := status &&& 0x01 != 0
            apr := status &&& 0x02 != 0
            gainLimited := status &&& 0x04 != 0
            powerClamping := status &&& 0x08 != 0
            reservedBits := status >>> 4 }

/-- The presentation step `val/100` of the power and VOA print
f-strings: hundredths scaling of a raw signed value. -/
def scaled100 (v : Int) : ℚ := (v : ℚ) / 100

/-- Method `EDFACommand.parse_power_response`: `len(data) // 2` big-endian
signed 16-bit raw values (each printed divided by 100, i.e. hundredths
of a dBm). -/
def parse_power_response (r : List Nat) : Except ParseError (List Int) :=
  if r.length < 12 then .error .responseTooShort
  else
    let data := payload_slice r
    if data.length < 2 then .error .notEnoughData
    else
      let n := data.length / 2
      .ok ((List.range n).map fun i =>
        toI16 (data.getD (2 * i) 0) (data.getD (2 * i + 1) 0))

/-- Table `alarm_names` from `EDFACommand.parse_alarm_status_response`. -/
def alarm_names : List String :=
  ["Gain Stage 1 Loss of Signal (LOS-1)", "Heater Temperature (HT)",
   "Gain Stage 1 Loss of Power (LOP-1)", "Laser over-current alarm (ILD)",
   "Laser temperature alarm (TMP)", "Module Low Temperature alarm (MTL)",
   "Module High Temperature alarm (MTH)", "Gain Stage 2 Loss of Signal alarm (LOS-2)",
   "Gain Stage 2 Loss of Power alarm (LOP-2)", "Shutoff alarm (SHUTOFF)",
   "ORL alarm (ORL)", "APR alarm (APR)", "TEC current alarm (TEC)",
   "Laser Source alarm (SLD)", "Out-Of-Gain (OOG)",
   "Variable Optical Attenuator (VOA)", "Input Optical Overload (IOO)",
   "External HW disable (DIS)", "L-Band Input Loss of Signal (LOS-L)",
   "Mid stage loss (MLOSS)", "Fiber LoopGain 1 alarm (FLG1)",
   "Fiber LoopGain 2 alarm (FLG2)"]

/-- The loop `for i, name in enumerate(alarm_names): if word & (1 << (31 - i))`:
the `(index, name)` pairs whose bit `31 - i` is set in `word`. -/
def alarmsIn (word : Nat) : List (Nat × String) :=
  alarm_names.enum.filter fun p => word &&& (1 <<< (31 - p.1)) != 0

/-- One amplifier record of alarm data as printed by
`EDFACommand.parse_alarm_status_response`. -/
structure AlarmRecord where
  current : Nat
  latched : Nat
  activeAlarms : List (Nat × String)
  latchedAlarms : List (Nat × String)
deriving DecidableEq

/-- Method `EDFACommand.parse_alarm_status_response`: `len(data) // 8` records,
each a big-endian 32-bit current word and latched word with their set
alarm bits. -/
def parse_alarm_status_response (r : List Nat) : Except ParseError (List AlarmRecord) :=
  if r.length < 18 then .error .responseTooShort
  else
    let data := payload_slice r
    if data.length < 8 then .error .notEnoughData
    else
      let nAmps := data.length / 8
      if nAmps = 0 then .error .noAmpData
      else .ok ((List.range nAmps).map fun amp =>
        let base := amp * 8
        let current := readU32be (data.getD base 0) (data.getD (base + 1) 0)
          (data.getD (base + 2) 0) (data.getD (base + 3) 0)
        let latched := readU32be (data.getD (base + 4) 0) (data.getD (base + 5) 0)
          (data.getD (base + 6) 0) (data.getD (base + 7) 0)
        { current := current
          latched := latched
          activeAlarms := alarmsIn current
          latchedAlarms := alarmsIn latched })

/-- The four named states of `voa_mode_map` in
`parse_voa_mode_response`, plus the `Unknown (voa_mode)` fallback. -/
inductive VoaMode
  | disableOpaque
  | constantAttenuation
  | constantOutputPower
  | fastAttenuation
  | unknown (code : Nat)
deriving DecidableEq

/-- Lookup `voa_mode_map.get(voa_mode, f'Unknown ({voa_mode})')`. -/
def voa_mode_map (c : Nat) : VoaMode :=
  if c = 1 then .disableOpaque
  else if c = 2 then .constantAttenuation
  else if c = 3 then .constantOutputPower
  else if c = 4 then .fastAttenuation
  else .unknown c

/-- Method `EDFACommand.parse_voa_mode_response`: `len(data) // 3` records of a
mode byte and a big-endian signed 16-bit raw attenuation/power value
(printed divided by 100). -/
def parse_voa_mode_response (r : List Nat) : Except ParseError (List (VoaMode × Int)) :=
  if r.length < 12 then .error .responseTooShort
  else
    let data := payload_slice r
    if data.length < 3 then .error .notEnoughData
    else
      let n := data.length / 3
      .ok ((List.range n).map fun i =>
        (voa_mode_map (data.getD (3 * i) 0),
         toI16 (data.getD (3 * i + 1) 0) (data.getD (3 * i + 2) 0)))

/-- The eleven fields unpacked by
`EDFACommand.parse_pump_laser_status_response` with the format
`greater-than hhhhhhhhIhh` (eight signed 16-bit, one unsigned 32-bit,
two signed 16-bit, all big-endian). -/
structure PumpLaserStatus where
  laserCurrent : Int
  endOfLifeCurrent : Int
  backFacetCurrent : Int
  laserPower : Int
  tecCurrent : Int
  tecVoltage : Int
  laserTemperature : Int
  laserCurrentSetPoint : Int
  hoursOperating : Nat
  avgLaserCurrent : Int
  reserved : Int
deriving DecidableEq

/-- Model of `struct.unpack` with the 24-byte format `greater-than hhhhhhhhIhh`:
succeeds only on a buffer of exactly 24 bytes, otherwise raises
`struct.error` (modelled as `unpackError`). -/
def unpackPump (data : List Nat) : Except ParseError PumpLaserStatus :=
  if data.length = 24 then
    .ok { laserCurrent := toI16 (data.getD 0 0) (data.getD 1 0)
          endOfLifeCurrent := toI16 (data.getD 2 0) (data.getD 3 0)
          backFacetCurrent := toI16 (data.getD 4 0) (data.getD 5 0)
          laserPower := toI16 (data.getD 6 0) (data.getD 7 0)
          tecCurrent := toI16 (data.getD 8 0) (data.getD 9 0)
          tecVoltage := toI16 (data.getD 10 0) (data.getD 11 0)
          laserTemperature := toI16 (data.getD 12 0) (data.getD 13 0)
          laserCurrentSetPoint := toI16 (data.getD 14 0) (data.getD 15 0)
          hoursOperating := readU32be (data.getD 16 0) (data.getD 17 0)
            (data.getD 18 0) (data.getD 19 0)
          avgLaserCurrent := toI16 (data.getD 20 0) (data.getD 21 0)
          reserved := toI16 (data.getD 22 0) (data.getD 23 0) }
  else .error .unpackError

/-- Method `EDFACommand.parse_pump_laser_status_response`: outer length guard,
inner data-length guard, then the exact-width unpack. -/
def parse_pump_laser_status_response (r : List Nat) : Except ParseError PumpLaserStatus :=
  if r.length < 33 then .error .responseTooShort
  else
    let data := payload_slice r
    if data.length < 24 then .error .notEnoughData
    else unpackPump data

/-! ## Helper lemmas -/

theorem crc16Round_lt (c : Nat) : crc16Round c < 65536 := by
  unfold crc16Round; split <;> exact Nat.mod_lt _ (by norm_num)

theorem crc16Step_lt (c b : Nat) : crc16Step c b < 65536 := by
  show crc16Round _ < 65536
  exact crc16Round_lt _

theorem crc16_foldl_lt (bs : List Nat) (init : Nat) (h : init < 65536) :
    bs.foldl crc16Step init < 65536 := by
  induction bs generalizing init with
  | nil => exact h
  | cons b bs ih => exact ih _ (crc16Step_lt _ _)

theorem crc16_lt (bs : List Nat) : crc16 bs < 65536 :=
  crc16_foldl_lt bs 0xFFFF (by norm_num)

theorem payload_slice_length (r : List Nat) : (payload_slice r).length = r.length - 9 := by
  simp [payload_slice]; omega

theorem payload_slice_sandwich (hdr p tail : List Nat) (hh : hdr.length = 7)
    (ht : tail.length = 2) : payload_slice (hdr ++ p ++ tail) = p := by
  have h1 : (hdr ++ p ++ tail).length - 9 = p.length := by
    simp only [List.length_append, hh, ht]; omega
  unfold payload_slice
  rw [h1, List.append_assoc, ← hh, List.drop_left, List.take_left]

theorem sandwich_length (hdr p tail : List Nat) (hh : hdr.length = 7)
    (ht : tail.length = 2) : (hdr ++ p ++ tail).length = 9 + p.length := by
  simp only [List.length_append, hh, ht]; omega

theorem payload_slice_append2 (r : List Nat) (a b : Nat) :
    payload_slice (r ++ [a, b]) = r.drop 7 := by
  have h1 : (r ++ [a, b]).length - 9 = r.length - 7 := by
    simp only [List.length_append, List.length_cons, List.length_nil]
    omega
  unfold payload_slice
  rw [h1]
  rcases Nat.le_total 7 r.length with h | h
  · rw [List.drop_append_of_le_length h]
    have h2 : (r.drop 7).length = r.length - 7 := by simp
    rw [← h2, List.take_left]
  · have h2 : r.length - 7 = 0 := by omega
    have h3 : r.drop 7 = [] := List.drop_eq_nil_of_le (by omega)
    rw [h2, List.take_zero, h3]

theorem parse_power_ok (r : List Nat) (h12 : 12 ≤ r.length) :
    parse_power_response r = .ok ((List.range ((r.length - 9) / 2)).map fun i =>
      toI16 ((payload_slice r).getD (2 * i) 0) ((payload_slice r).getD (2 * i + 1) 0)) := by
  have hd := payload_slice_length r
  simp only [parse_power_response, hd]
  rw [if_neg (by omega)]
  rw [if_neg (by omega)]

theorem parse_power_sandwich (hdr p tail : List Nat) (hh : hdr.length = 7)
    (ht : tail.length = 2) (hp : 3 ≤ p.length) :
    parse_power_response (hdr ++ p ++ tail) = .ok ((List.range (p.length / 2)).map fun i =>
      toI16 (p.getD (2 * i) 0) (p.getD (2 * i + 1) 0)) := by
  have hl := sandwich_length hdr p tail hh ht
  have hs := payload_slice_sandwich hdr p tail hh ht
  rw [parse_power_ok (hdr ++ p ++ tail) (by omega), hs, hl]
  norm_num

theorem parse_alarm_ok (r : List Nat) (h18 : 18 ≤ r.length) :
    ∃ l, parse_alarm_status_response r = .ok l ∧ l.length = (r.length - 9) / 8 := by
  have hd := payload_slice_length r
  simp only [parse_alarm_status_response, hd]
  rw [if_neg (by omega)]
  rw [if_neg (by omega)]
  rw [if_neg (by omega)]
  exact ⟨_, rfl, by simp⟩

theorem parse_voa_ok (r : List Nat) (h12 : 12 ≤ r.length) :
    ∃ l, parse_voa_mode_response r = .ok l ∧ l.length = (r.length - 9) / 3 := by
  have hd := payload_slice_length r
  simp only [parse_voa_mode_response, hd]
  rw [if_neg (by omega)]
  rw [if_neg (by omega)]
  exact ⟨_, rfl, by simp⟩

theorem parse_mode_sandwich (hdr p tail : List Nat) (hh : hdr.length = 7)
    (ht : tail.length = 2) (hp : 3 ≤ p.length) :
    parse_mode_status_response (hdr ++ p ++ tail) = .ok (p.getD 0 0, mode_map (p.getD 1 0)) := by
  have hl := sandwich_length hdr p tail hh ht
  simp only [parse_mode_status_response, payload_slice_sandwich hdr p tail hh ht, hl]
  rw [if_neg (by omega)]
  rw [if_neg (by omega)]

/-! ## Claims -/

/-- Claim C1: `crc16` computes CRC-16/CCITT-FALSE (polynomial 0x1021, initial value
0xFFFF, MSB-first, no reflection, no final xor) as a pure total function: the empty
byte sequence yields the initial value 0xFFFF, the standard reference vector
"123456789" yields the published CCITT-FALSE check value 0x29B1, and every result
fits in 16 bits. -/
theorem crc16_ccitt_false_spec :
    crc16 [] = 0xFFFF ∧
    crc16 [0x31, 0x32, 0x33, 0x34, 0x35, 0x36, 0x37, 0x38, 0x39] = 0x29B1 ∧
    ∀ bs : List Nat, crc16 bs < 65536 :=
  ⟨rfl, by decide, fun bs => crc16_lt bs⟩

/-- Claim C2 counterexample: the frame encoded for address [0x00, 0x03], command 0x31
and two argument bytes has length 9 = 5 + 2 + 2, not 6 + 2 + 2 = 10 as the claimed
length formula states: the envelope contributes five bytes (sync, address high,
address low, sync, command), not six. -/
theorem build_frame_length_counterexample :
    (build_frame [0x00, 0x03] 0x31 [0x01, 0x01]).length = 9 ∧
    (build_frame [0x00, 0x03] 0x31 [0x01, 0x01]).length ≠ 6 + 2 + 2 := by decide

/-- Claim C2 (amended): for every 2-byte address, command id and argument list the
encoder returns exactly SYNC (0x68), address[0], address[1], SYNC (0x68), command id,
the argument bytes unchanged, then the 2-byte big-endian CRC over every preceding
byte; encoding is deterministic and total, and the frame length is
5 + len(args) + 2 (not 6 + len(args) + 2). -/
theorem build_frame_spec_amended (a0 a1 cmd : Nat) (args : List Nat) :
    build_frame [a0, a1] cmd args =
      ([0x68, a0, a1, 0x68, cmd] ++ args) ++
        [crc16 ([0x68, a0, a1, 0x68, cmd] ++ args) / 256,
         crc16 ([0x68, a0, a1, 0x68, cmd] ++ args) % 256] ∧
    (build_frame [a0, a1] cmd args).length = 5 + args.length + 2 := by
  refine ⟨rfl, ?_⟩
  simp only [build_frame, frame_data, SYNC_BYTE, List.length_append, List.length_cons,
    List.length_nil]

/-- Claim C4: for every address, command id and argument list, recomputing the CRC
over the encoded frame minus its last two bytes equals the last two bytes read
big-endian: the envelope CRC check on a freshly encoded frame always succeeds. -/
theorem encode_crc_roundtrip (a0 a1 cmd : Nat) (args : List Nat) :
    crc16 ((build_frame [a0, a1] cmd args).take ((build_frame [a0, a1] cmd args).length - 2)) =
      256 * (build_frame [a0, a1] cmd args).getD ((build_frame [a0, a1] cmd args).length - 2) 0 +
        (build_frame [a0, a1] cmd args).getD ((build_frame [a0, a1] cmd args).length - 1) 0 := by
  have hb : build_frame [a0, a1] cmd args =
      frame_data [a0, a1] cmd args ++
        [crc16 (frame_data [a0, a1] cmd args) / 256,
         crc16 (frame_data [a0, a1] cmd args) % 256] := rfl
  set fd := frame_data [a0, a1] cmd args with hfd
  set c := crc16 fd with hc
  have hlen : (fd ++ [c / 256, c % 256]).length = fd.length + 2 := by simp
  rw [hb, hlen]
  have h2 : fd.length + 2 - 2 = fd.length := by omega
  have h1 : fd.length + 2 - 1 = fd.length + 1 := by omega
  rw [h2, h1, List.take_left]
  have g1 : (fd ++ [c / 256, c % 256]).getD fd.length 0 = c / 256 := by
    rw [List.getD_append_right _ _ _ _ (Nat.le_refl _)]
    simp
  have g2 : (fd ++ [c / 256, c % 256]).getD (fd.length + 1) 0 = c % 256 := by
    rw [List.getD_append_right _ _ _ _ (by omega)]
    simp
  rw [g1, g2]
  exact (Nat.div_add_mod c 256).symm

/-- Claim C3 counterexample: a received power response whose trailing two bytes
(0x00, 0x00) do not equal the CCITT-FALSE CRC of the preceding bytes is still
decoded into payload values instead of failing with a CRC-mismatch error. -/
theorem decode_no_crc_check_counterexample :
    parse_power_response
        ([0x68, 0x00, 0x05, 0x68, 0x36, 0x00, 0x02] ++ [0x00, 0x64, 0xFF, 0x9C] ++
          [0x00, 0x00]) = .ok [100, -100] ∧
    crc16 (([0x68, 0x00, 0x05, 0x68, 0x36, 0x00, 0x02] ++ [0x00, 0x64, 0xFF, 0x9C] ++
          [0x00, 0x00]).take 11) ≠ 256 * 0x00 + 0x00 := by decide

/-- Claim C3 (amended): the response decoders perform no CRC verification at all:
the trailing two bytes are stripped unexamined, so the decode result is unchanged
under arbitrary replacement of the trailing two bytes, and a buffer whose trailer
mismatches the CRC of the preceding bytes is decoded exactly like a valid one
(CRC mismatches are silently accepted, never surfaced). -/
theorem parse_ignores_crc_trailer (r : List Nat) (c1 c2 c1' c2' : Nat) :
    parse_mode_status_response (r ++ [c1, c2]) = parse_mode_status_response (r ++ [c1', c2']) ∧
    parse_power_response (r ++ [c1, c2]) = parse_power_response (r ++ [c1', c2']) := by
  have hl : (r ++ [c1, c2]).length = (r ++ [c1', c2']).length := by simp
  constructor
  · simp only [parse_mode_status_response, payload_slice_append2, hl]
  · simp only [parse_power_response, payload_slice_append2, hl]

/-- Claim C6 counterexample: the decoder rejects a response carrying exactly the
2-byte payload [0x01, 0x03] (11 bytes in total, below the 12-byte response
minimum) with the too-short early return instead of decoding amplifier 1,
Constant Gain. -/
theorem mode_payload2_counterexample :
    parse_mode_status_response
        ([0x68, 0x00, 0x05, 0x68, 0x31, 0x00, 0x02] ++ [0x01, 0x03] ++ [0x00, 0x00]) =
      .error .responseTooShort ∧
    parse_mode_status_response
        ([0x68, 0x00, 0x05, 0x68, 0x31, 0x00, 0x02] ++ [0x01, 0x03] ++ [0x00, 0x00]) ≠
      .ok (1, .constantGain) := by decide

/-- Claim C6 (amended): the mode decoder reads the payload as amplifier index then
mode code, maps the code through a closed table of exactly ten named modes with
code 3 = Constant Gain, and turns any unmapped code into an unknown variant
carrying the raw code rather than an error; however the payload must be at least
3 bytes (response at least 12 bytes), so [0x01, 0x03, b] decodes to amplifier 1
Constant Gain and [0x01, 0x63, b] to amplifier 1 unknown 0x63, while the bare
2-byte payload [0x01, 0x03] is rejected as too short. -/
theorem mode_decoder_amended :
    mode_map 3 = .constantGain ∧
    [1, 2, 3, 4, 5, 6, 7, 8, 9, 10].map mode_map =
      [.disable, .manual, .constantGain, .constantPower, .clamping,
       .aseEnableConstOutputPower, .aseEnableConstDriveCurrent, .aseSafe,
       .afcConstGain, .afcConstPower] ∧
    (∀ c : Nat, c = 0 ∨ 11 ≤ c → mode_map c = .unknown c) ∧
    (∀ hdr tail : List Nat, ∀ b : Nat, hdr.length = 7 → tail.length = 2 →
      parse_mode_status_response (hdr ++ [0x01, 0x03, b] ++ tail) = .ok (1, .constantGain) ∧
      parse_mode_status_response (hdr ++ [0x01, 0x63, b] ++ tail) = .ok (1, .unknown 0x63)) ∧
    (∀ hdr tail : List Nat, hdr.length = 7 → tail.length = 2 →
      parse_mode_status_response (hdr ++ [0x01, 0x03] ++ tail) = .error .responseTooShort) := by
  refine ⟨rfl, by decide, ?_, ?_, ?_⟩
  · intro c hc
    have h1 : c ≠ 1 := by omega
    have h2 : c ≠ 2 := by omega
    have h3 : c ≠ 3 := by omega
    have h4 : c ≠ 4 := by omega
    have h5 : c ≠ 5 := by omega
    have h6 : c ≠ 6 := by omega
    have h7 : c ≠ 7 := by omega
    have h8 : c ≠ 8 := by omega
    have h9 : c ≠ 9 := by omega
    have h10 : c ≠ 10 := by omega
    simp [mode_map, h1, h2, h3, h4, h5, h6, h7, h8, h9, h10]
  · intro hdr tail b hh ht
    exact ⟨parse_mode_sandwich hdr [0x01, 0x03, b] tail hh ht (by simp),
           parse_mode_sandwich hdr [0x01, 0x63, b] tail hh ht (by simp)⟩
  · intro hdr tail hh ht
    have hl := sandwich_length hdr [0x01, 0x03] tail hh ht
    simp only [parse_mode_status_response, hl]
    rw [if_pos (by norm_num)]

/-- Claim C6 witness: the amended mode-decoder theorem applied at a concrete
header, trailer and third payload byte, and at the concrete unmapped code 0x63. -/
theorem mode_decoder_amended_witness :
    parse_mode_status_response ([0, 0, 0, 0, 0, 0, 0] ++ [0x01, 0x03, 0] ++ [0, 0]) =
      .ok (1, .constantGain) ∧
    mode_map 0x63 = .unknown 0x63 :=
  ⟨(mode_decoder_amended.2.2.2.1 [0, 0, 0, 0, 0, 0, 0] [0, 0] 0 rfl rfl).1,
   mode_decoder_amended.2.2.1 0x63 (Or.inr (by norm_num))⟩

/-- Claim C5 counterexample: a response carrying exactly the 8-byte payload with
current word 0x80000000 and latched word 0 is 17 bytes long, below the decoder
18-byte response minimum, and is rejected with the too-short early return instead
of yielding one active alarm. -/
theorem alarm_payload8_counterexample :
    parse_alarm_status_response
        ([0x68, 0x00, 0x04, 0x68, 0x40, 0x00, 0x08] ++
          [0x80, 0x00, 0x00, 0x00, 0x00, 0x00, 0x00, 0x00] ++ [0x00, 0x00]) =
      .error .responseTooShort := by decide

/-- Claim C5 (amended): the alarm decoder splits the payload into
`len(payload) / 8` records, reads each as a big-endian 32-bit current word then
latched word, and tests exactly the 22 named positions at bits `31 - i`
(`i < 22`, i.e. bits 31 down to 10, MSB-first) of each word; but the payload must
be at least 9 bytes (response at least 18 bytes), so a bare 8-byte payload is
rejected as too short, while a 9-byte payload whose first record has current word
0x80000000 and latched word 0 yields exactly one active alarm — the first named
condition — and zero latched alarms. -/
theorem alarm_decoder_amended :
    (∀ r : List Nat, 18 ≤ r.length →
      ∃ l, parse_alarm_status_response r = .ok l ∧ l.length = (r.length - 9) / 8) ∧
    alarm_names.length = 22 ∧
    (∀ w i : Nat, ∀ n : String, ((i, n) ∈ alarmsIn w) ↔
      (alarm_names[i]? = some n ∧ w &&& (1 <<< (31 - i)) ≠ 0)) ∧
    (∀ i : Nat, i < 22 → 1 <<< (31 - i) = 2 ^ (31 - i) ∧ 10 ≤ 31 - i ∧ 31 - i ≤ 31) ∧
    (∀ hdr tail : List Nat, ∀ b : Nat, hdr.length = 7 → tail.length = 2 →
      parse_alarm_status_response
          (hdr ++ [0x80, 0x00, 0x00, 0x00, 0x00, 0x00, 0x00, 0x00, b] ++ tail) =
        .ok [{ current := 0x80000000, latched := 0,
               activeAlarms := [(0, "Gain Stage 1 Loss of Signal (LOS-1)")],
               latchedAlarms := [] }]) := by
  refine ⟨fun r h18 => parse_alarm_ok r h18, rfl, ?_, ?_, ?_⟩
  · intro w i n
    simp only [alarmsIn, List.mem_filter, List.mk_mem_enum_iff_getElem?, bne_iff_ne, ne_eq]
  · intro i hi
    exact ⟨Nat.one_shiftLeft _, by omega, by omega⟩
  · intro hdr tail b hh ht
    have hs := payload_slice_sandwich hdr
      [0x80, 0x00, 0x00, 0x00, 0x00, 0x00, 0x00, 0x00, b] tail hh ht
    have hl := sandwich_length hdr
      [0x80, 0x00, 0x00, 0x00, 0x00, 0x00, 0x00, 0x00, b] tail hh ht
    have ha : alarmsIn 0x80000000 = [(0, "Gain Stage 1 Loss of Signal (LOS-1)")] := by decide
    have hz : alarmsIn 0 = [] := by decide
    simp only [parse_alarm_status_response, hs, hl]
    rw [if_neg (by norm_num)]
    rw [if_neg (by norm_num)]
    rw [if_neg (by norm_num)]
    norm_num [List.range_succ, List.range_zero, List.map_cons, List.map_nil,
      List.nil_append, List.getD, readU32be, ha, hz]

/-- Claim C5 witness: the amended alarm-decoder theorem applied at a concrete
18-byte response and at a concrete header, trailer and ninth payload byte. -/
theorem alarm_decoder_amended_witness :
    (∃ l, parse_alarm_status_response
        [0, 0, 0, 0, 0, 0, 0, 0, 0, 0, 0, 0, 0, 0, 0, 0, 0, 0] = .ok l ∧
      l.length = ([0, 0, 0, 0, 0, 0, 0, 0, 0, 0, 0, 0, 0, 0, 0, 0, 0, 0].length - 9) / 8) ∧
    parse_alarm_status_response
        ([0, 0, 0, 0, 0, 0, 0] ++ [0x80, 0x00, 0x00, 0x00, 0x00, 0x00, 0x00, 0x00, 0x07] ++
          [0, 0]) =
      .ok [{ current := 0x80000000, latched := 0,
             activeAlarms := [(0, "Gain Stage 1 Loss of Signal (LOS-1)")],
             latchedAlarms := [] }] :=
  ⟨alarm_decoder_amended.1 [0, 0, 0, 0, 0, 0, 0, 0, 0, 0, 0, 0, 0, 0, 0, 0, 0, 0] (by decide),
   alarm_decoder_amended.2.2.2.2 [0, 0, 0, 0, 0, 0, 0] [0, 0] 0x07 rfl rfl⟩

/-- Claim C7: the power decoder reads the payload as big-endian signed 16-bit
twos-complement values, one per 2 payload bytes (`len(data) / 2` values), each
presented divided by 100 as hundredths of a dBm; the payload
[0x00, 0x64, 0xFF, 0x9C] gives the raw values 100 and -100, i.e. 1.00 dBm and
-1.00 dBm after the hundredths scaling. -/
theorem power_decoder_spec :
    (∀ hi lo : Nat, toI16 hi lo % 65536 = ((hi : Int) % 256) * 256 + (lo : Int) % 256 ∧
      -32768 ≤ toI16 hi lo ∧ toI16 hi lo < 32768) ∧
    (∀ r : List Nat, 12 ≤ r.length →
      ∃ l, parse_power_response r = .ok l ∧ l.length = (r.length - 9) / 2 ∧
        ∀ i : Nat, i < l.length →
          l.getD i 0 = toI16 ((payload_slice r).getD (2 * i) 0)
            ((payload_slice r).getD (2 * i + 1) 0)) ∧
    (∀ hdr tail : List Nat, hdr.length = 7 → tail.length = 2 →
      parse_power_response (hdr ++ [0x00, 0x64, 0xFF, 0x9C] ++ tail) = .ok [100, -100] ∧
      [(100 : Int), -100].map scaled100 = [(1 : ℚ), -1]) := by
  refine ⟨?_, ?_, ?_⟩
  · intro hi lo
    simp only [toI16]
    split <;> constructor <;> push_cast <;> omega
  · intro r h12
    refine ⟨_, parse_power_ok r h12, by simp, ?_⟩
    intro i hi
    simp only [List.length_map, List.length_range] at hi
    rw [List.getD_eq_getElem _ _ (by simpa using hi)]
    simp
  · intro hdr tail hh ht
    constructor
    · rw [parse_power_sandwich hdr [0x00, 0x64, 0xFF, 0x9C] tail hh ht (by norm_num)]
      decide
    · norm_num [scaled100]

/-- Claim C7 witness: the power-decoder theorem applied at a concrete response
built from a 7-byte header, the reference payload and a 2-byte trailer. -/
theorem power_decoder_spec_witness :
    parse_power_response ([0, 0, 0, 0, 0, 0, 0] ++ [0x00, 0x64, 0xFF, 0x9C] ++ [0, 0]) =
      .ok [100, -100] :=
  (power_decoder_spec.2.2 [0, 0, 0, 0, 0, 0, 0] [0, 0] rfl rfl).1

/-- Claim C8 counterexample: payloads whose lengths are not multiples of the
per-record width (3 bytes for the 2-byte power records, 4 bytes for the 3-byte
VOA records, 9 bytes for the 8-byte alarm records) are decoded successfully —
the trailing remainder bytes are silently ignored — instead of failing with a
misaligned-payload error. -/
theorem misaligned_accept_counterexample :
    parse_power_response
        ([0x68, 0x00, 0x05, 0x68, 0x35, 0x00, 0x02] ++ [0x00, 0x64, 0xFF] ++ [0x00, 0x00]) =
      .ok [100] ∧
    parse_voa_mode_response
        ([0x68, 0x00, 0x05, 0x68, 0x62, 0x00, 0x04] ++ [0x01, 0x00, 0x32, 0x09] ++
          [0x00, 0x00]) = .ok [(.disableOpaque, 50)] ∧
    parse_alarm_status_response
        ([0x68, 0x00, 0x04, 0x68, 0x40, 0x00, 0x09] ++
          [0x00, 0x00, 0x00, 0x00, 0x00, 0x00, 0x00, 0x00, 0x05] ++ [0x00, 0x00]) =
      .ok [{ current := 0, latched := 0, activeAlarms := [], latchedAlarms := [] }] :=
  ⟨by decide, by decide, by decide⟩

/-- Claim C8 (amended): the repeated-record decoders (power: 2-byte records,
alarm: 8-byte records, VOA mode: 3-byte records) accept every payload meeting
their minimum length, whether or not it is a multiple of the record width, and
decode `len(payload) / width` (floor) records, silently ignoring up to
width - 1 trailing remainder bytes; no misaligned-payload error exists. -/
theorem repeated_record_decoders_amended :
    (∀ r : List Nat, 12 ≤ r.length →
      ∃ l, parse_power_response r = .ok l ∧ l.length = (r.length - 9) / 2) ∧
    (∀ r : List Nat, 18 ≤ r.length →
      ∃ l, parse_alarm_status_response r = .ok l ∧ l.length = (r.length - 9) / 8) ∧
    (∀ r : List Nat, 12 ≤ r.length →
      ∃ l, parse_voa_mode_response r = .ok l ∧ l.length = (r.length - 9) / 3) := by
  refine ⟨?_, fun r h => parse_alarm_ok r h, fun r h => parse_voa_ok r h⟩
  intro r h12
  exact ⟨_, parse_power_ok r h12, by simp⟩

/-- Claim C8 witness: the amended repeated-record theorem applied at concrete
12-byte and 18-byte responses. -/
theorem repeated_record_decoders_amended_witness :
    (∃ l, parse_power_response [0, 0, 0, 0, 0, 0, 0, 0, 0, 0, 0, 0] = .ok l ∧
      l.length = ([0, 0, 0, 0, 0, 0, 0, 0, 0, 0, 0, 0].length - 9) / 2) ∧
    (∃ l, parse_alarm_status_response
        [0, 0, 0, 0, 0, 0, 0, 0, 0, 0, 0, 0, 0, 0, 0, 0, 0, 0] = .ok l ∧
      l.length = ([0, 0, 0, 0, 0, 0, 0, 0, 0, 0, 0, 0, 0, 0, 0, 0, 0, 0].length - 9) / 8) ∧
    (∃ l, parse_voa_mode_response [0, 0, 0, 0, 0, 0, 0, 0, 0, 0, 0, 0] = .ok l ∧
      l.length = ([0, 0, 0, 0, 0, 0, 0, 0, 0, 0, 0, 0].length - 9) / 3) :=
  ⟨repeated_record_decoders_amended.1 [0, 0, 0, 0, 0, 0, 0, 0, 0, 0, 0, 0] (by decide),
   repeated_record_decoders_amended.2.1
     [0, 0, 0, 0, 0, 0, 0, 0, 0, 0, 0, 0, 0, 0, 0, 0, 0, 0] (by decide),
   repeated_record_decoders_amended.2.2 [0, 0, 0, 0, 0, 0, 0, 0, 0, 0, 0, 0] (by decide)⟩

/-- Claim C9: every response decoder invoked with a payload shorter than its
declared minimum length (24 bytes for pump-laser status, 2 for mode, 1 for module
status, 2 for power, 8 for alarm status, 3 for VOA mode) returns the too-short
error and decodes no record at all (the model reads no byte beyond the given
list; an error result carries no half-decoded record). -/
theorem short_payload_rejected (hdr p tail : List Nat) (hh : hdr.length = 7)
    (ht : tail.length = 2) :
    (p.length < 24 →
      parse_pump_laser_status_response (hdr ++ p ++ tail) = .error .responseTooShort) ∧
    (p.length < 2 →
      parse_mode_status_response (hdr ++ p ++ tail) = .error .responseTooShort) ∧
    (p.length < 1 →
      parse_module_status_response (hdr ++ p ++ tail) = .error .responseTooShort) ∧
    (p.length < 2 →
      parse_power_response (hdr ++ p ++ tail) = .error .responseTooShort) ∧
    (p.length < 8 →
      parse_alarm_status_response (hdr ++ p ++ tail) = .error .responseTooShort) ∧
    (p.length < 3 →
      parse_voa_mode_response (hdr ++ p ++ tail) = .error .responseTooShort) := by
  have hl := sandwich_length hdr p tail hh ht
  refine ⟨?_, ?_, ?_, ?_, ?_, ?_⟩
  · intro hp
    simp only [parse_pump_laser_status_response, hl]
    rw [if_pos (by omega)]
  · intro hp
    simp only [parse_mode_status_response, hl]
    rw [if_pos (by omega)]
  · intro hp
    simp only [parse_module_status_response, hl]
    rw [if_pos (by omega)]
  · intro hp
    simp only [parse_power_response, hl]
    rw [if_pos (by omega)]
  · intro hp
    simp only [parse_alarm_status_response, hl]
    rw [if_pos (by omega)]
  · intro hp
    simp only [parse_voa_mode_response, hl]
    rw [if_pos (by omega)]

/-- Claim C9 witness: the short-payload theorem applied at a concrete 7-byte
header, empty payload and 2-byte trailer, which is below every decoder
minimum. -/
theorem short_payload_rejected_witness :
    parse_pump_laser_status_response ([0, 0, 0, 0, 0, 0, 0] ++ [] ++ [0, 0]) =
      .error .responseTooShort ∧
    parse_mode_status_response ([0, 0, 0, 0, 0, 0, 0] ++ [] ++ [0, 0]) =
      .error .responseTooShort ∧
    parse_module_status_response ([0, 0, 0, 0, 0, 0, 0] ++ [] ++ [0, 0]) =
      .error .responseTooShort ∧
    parse_power_response ([0, 0, 0, 0, 0, 0, 0] ++ [] ++ [0, 0]) =
      .error .responseTooShort ∧
    parse_alarm_status_response ([0, 0, 0, 0, 0, 0, 0] ++ [] ++ [0, 0]) =
      .error .responseTooShort ∧
    parse_voa_mode_response ([0, 0, 0, 0, 0, 0, 0] ++ [] ++ [0, 0]) =
      .error .responseTooShort := by
  have h := short_payload_rejected [0, 0, 0, 0, 0, 0, 0] [] [0, 0] rfl rfl
  exact ⟨h.1 (by decide), h.2.1 (by decide), h.2.2.1 (by decide), h.2.2.2.1 (by decide),
    h.2.2.2.2.1 (by decide), h.2.2.2.2.2 (by decide)⟩

/-- Claim C10: the pump-laser status parser completes its fixed-width decode
(eight big-endian signed 16-bit fields, one big-endian unsigned 32-bit field,
two big-endian signed 16-bit fields) only for responses of exactly 33 bytes;
shorter responses take the outer early return without decoding any field,
strictly longer responses make the 24-byte exact-width unpack of
`response[7:-2]` fail (an unhandled `struct.error` in the source, modelled as
the unpack error), and the inner guard for fewer than 24 payload bytes is
unreachable: the parser never returns its not-enough-data result. -/
theorem pump_laser_exact_length (r : List Nat) :
    (r.length < 33 →
      parse_pump_laser_status_response r = .error .responseTooShort) ∧
    (r.length = 33 → parse_pump_laser_status_response r = .ok
      { laserCurrent := toI16 ((payload_slice r).getD 0 0) ((payload_slice r).getD 1 0)
        endOfLifeCurrent := toI16 ((payload_slice r).getD 2 0) ((payload_slice r).getD 3 0)
        backFacetCurrent := toI16 ((payload_slice r).getD 4 0) ((payload_slice r).getD 5 0)
        laserPower := toI16 ((payload_slice r).getD 6 0) ((payload_slice r).getD 7 0)
        tecCurrent := toI16 ((payload_slice r).getD 8 0) ((payload_slice r).getD 9 0)
        tecVoltage := toI16 ((payload_slice r).getD 10 0) ((payload_slice r).getD 11 0)
        laserTemperature := toI16 ((payload_slice r).getD 12 0) ((payload_slice r).getD 13 0)
        laserCurrentSetPoint :=
          toI16 ((payload_slice r).getD 14 0) ((payload_slice r).getD 15 0)
        hoursOperating := readU32be ((payload_slice r).getD 16 0) ((payload_slice r).getD 17 0)
          ((payload_slice r).getD 18 0) ((payload_slice r).getD 19 0)
        avgLaserCurrent := toI16 ((payload_slice r).getD 20 0) ((payload_slice r).getD 21 0)
        reserved := toI16 ((payload_slice r).getD 22 0) ((payload_slice r).getD 23 0) }) ∧
    (33 < r.length →
      parse_pump_laser_status_response r = .error .unpackError) ∧
    parse_pump_laser_status_response r ≠ .error .notEnoughData := by
  have hd := payload_slice_length r
  have case1 : r.length < 33 →
      parse_pump_laser_status_response r = .error .responseTooShort := by
    intro h
    simp only [parse_pump_laser_status_response]
    rw [if_pos h]
  have case2 : r.length = 33 → parse_pump_laser_status_response r = .ok
      { laserCurrent := toI16 ((payload_slice r).getD 0 0) ((payload_slice r).getD 1 0)
        endOfLifeCurrent := toI16 ((payload_slice r).getD 2 0) ((payload_slice r).getD 3 0)
        backFacetCurrent := toI16 ((payload_slice r).getD 4 0) ((payload_slice r).getD 5 0)
        laserPower := toI16 ((payload_slice r).getD 6 0) ((payload_slice r).getD 7 0)
        tecCurrent := toI16 ((payload_slice r).getD 8 0) ((payload_slice r).getD 9 0)
        tecVoltage := toI16 ((payload_slice r).getD 10 0) ((payload_slice r).getD 11 0)
        laserTemperature := toI16 ((payload_slice r).getD 12 0) ((payload_slice r).getD 13 0)
        laserCurrentSetPoint :=
          toI16 ((payload_slice r).getD 14 0) ((payload_slice r).getD 15 0)
        hoursOperating := readU32be ((payload_slice r).getD 16 0) ((payload_slice r).getD 17 0)
          ((payload_slice r).getD 18 0) ((payload_slice r).getD 19 0)
        avgLaserCurrent := toI16 ((payload_slice r).getD 20 0) ((payload_slice r).getD 21 0)
        reserved := toI16 ((payload_slice r).getD 22 0) ((payload_slice r).getD 23 0) } := by
    intro h
    simp only [parse_pump_laser_status_response, unpackPump, hd, h]
    rw [if_neg (by omega)]
    rw [if_neg (by omega)]
    rw [if_pos trivial]
  have case3 : 33 < r.length →
      parse_pump_laser_status_response r = .error .unpackError := by
    intro h
    simp only [parse_pump_laser_status_response, unpackPump, hd]
    rw [if_neg (by omega)]
    rw [if_neg (by omega)]
    rw [if_neg (by omega)]
  refine ⟨case1, case2, case3, ?_⟩
  rcases Nat.lt_trichotomy r.length 33 with h | h | h
  · rw [case1 h]
    decide
  · rw [case2 h]
    exact fun hx => Except.noConfusion hx
  · rw [case3 h]
    decide

/-- Claim C10 witness: the exact-length theorem applied at concrete responses of
32, 33 and 34 bytes. -/
theorem pump_laser_exact_length_witness :
    parse_pump_laser_status_response (List.replicate 32 0) = .error .responseTooShort ∧
    parse_pump_laser_status_response (List.replicate 33 0) =
      .ok ⟨0, 0, 0, 0, 0, 0, 0, 0, 0, 0, 0⟩ ∧
    parse_pump_laser_status_response (List.replicate 34 0) = .error .unpackError := by
  refine ⟨(pump_laser_exact_length (List.replicate 32 0)).1 (by decide), ?_,
    (pump_laser_exact_length (List.replicate 34 0)).2.2.1 (by decide)⟩
  rw [(pump_laser_exact_length (List.replicate 33 0)).2.1 rfl]
  decide
